import Mathlib

/-!
Verification of the media ingestion-and-consistency pipeline.

Shallow embedding of the TypeScript sources:
  - FileValidator (file-validator service): validate, matchesMagicBytes,
    getMimeTypeFromExtension, the MIME allow-list and magic-byte table;
  - MetadataStore (SQLite-backed): save, findById, findAll, update, delete;
  - S3Service.mapS3Error (AWS error mapping) and remove;
  - MediaController: the storage-phase effect sequences of uploadFile,
    updateFile and deleteFile, and the s3-key derivation from the filename.

Byte buffers are `List Nat`, strings are Lean `String`.  JavaScript
`String.prototype.toLowerCase` is modelled per character (the relevant data
is ASCII).  JavaScript `lastIndexOf`/`substring` index arithmetic, including
the clamping of `substring(-1)` to index 0, is modelled over `Int`.
-/

namespace MediaService

/-- One metadata row of the `file_metadata` SQLite table (model
`FileMetadata`): columns id (TEXT PRIMARY KEY), original_name, mime_type,
size, s3_key, s3_bucket, uploaded_at.  `uploadedAt` is the ISO-8601 TEXT
value; SQLite compares TEXT by byte order, which on these ASCII strings
coincides with Lean's `String` order. -/
structure FileMetadata where
  id : String
  originalName : String
  mimeType : String
  size : Nat
  s3Key : String
  s3Bucket : String
  uploadedAt : String
deriving DecidableEq

/-- One file part produced by the multipart parser (`ParsedFile`). -/
structure ParsedFile where
  filename : String
  mimeType : String
  data : List Nat
deriving DecidableEq

/-- JavaScript `String.prototype.toLowerCase`, per character (ASCII). -/
def strToLower (s : String) : String := String.mk (s.data.map Char.toLower)

/-- The fixed MIME-type allow-list `ALLOWED_MIME_TYPES` of the validator. -/
def ALLOWED_MIME_TYPES : List String :=
  ["image/jpeg", "image/png", "image/gif", "application/pdf"]

/-- `EXTENSION_TO_MIME`: lower-cased extension (with the dot) to MIME type. -/
def EXTENSION_TO_MIME : List (String × String) :=
  [(".jpg", "image/jpeg"), (".jpeg", "image/jpeg"), (".png", "image/png"),
   (".gif", "image/gif"), (".pdf", "application/pdf")]

/-- `MAGIC_BYTES`: MIME type to the list of valid leading-byte signatures.
GIF signatures are the ASCII bytes of "GIF87a" / "GIF89a", PDF of "%PDF". -/
def MAGIC_BYTES : List (String × List (List Nat)) :=
  [("image/jpeg", [[0xff, 0xd8, 0xff]]),
   ("image/png", [[0x89, 0x50, 0x4e, 0x47]]),
   ("image/gif", [[71, 73, 70, 56, 55, 97], [71, 73, 70, 56, 57, 97]]),
   ("application/pdf", [[37, 80, 68, 70]])]

/-- `FileValidator.matchesMagicBytes(data, mimeType)`: looks up the
signatures registered for `mimeType.toLowerCase()`; with no registered
signatures it accepts by default; otherwise it accepts iff some signature
`sig` satisfies `data.length >= sig.length` and
`data.subarray(0, sig.length).equals(sig)`. -/
def matchesMagicBytes (data : List Nat) (mimeType : String) : Bool :=
  match MAGIC_BYTES.lookup (strToLower mimeType) with
  | none => true
  | some signatures =>
      signatures.any fun sig =>
        if data.length < sig.length then false
        else data.take sig.length == sig

/-- The four terminal rejection classes of `FileValidator.validate`.  In the
source the first is a thrown `BadRequestError`, the second a
`PayloadTooLargeError`, and the last two are both `UnsupportedMediaTypeError`
(415), distinguished by their message (allow-list rejection carries the
allowed-types detail; mismatch carries a content-mismatch message).  The
error message texts are not modelled here (no claim concerns them). -/
inductive ValidationError
  | badRequestEmpty
  | payloadTooLarge
  | unsupportedMediaTypeNotAllowed
  | unsupportedMediaTypeMismatch
deriving DecidableEq

/-- `FileValidator.validate(fileData, mimeType, filename)`: the four checks
in source order, first failure wins.  `maxFileSizeBytes` is the configured
limit (`config.maxFileSizeBytes`). -/
def validate (maxFileSizeBytes : Nat) (fileData : List Nat)
    (mimeType : String) (_filename : String) : Except ValidationError Unit :=
  if fileData.length = 0 then
    Except.error ValidationError.badRequestEmpty
  else if fileData.length > maxFileSizeBytes then
    Except.error ValidationError.payloadTooLarge
  else if ¬ ALLOWED_MIME_TYPES.contains (strToLower mimeType) then
    Except.error ValidationError.unsupportedMediaTypeNotAllowed
  else if ¬ matchesMagicBytes fileData mimeType then
    Except.error ValidationError.unsupportedMediaTypeMismatch
  else
    Except.ok ()

/-- Index of the last '.' in a character list, as JavaScript
`String.prototype.lastIndexOf(".")`: the index of the last occurrence, or
-1 when absent. -/
def lastDotIdx : List Char → Int
  | [] => -1
  | c :: rest =>
      let r := lastDotIdx rest
      if r ≥ 0 then r + 1
      else if c = '.' then 0 else -1

/-- JavaScript `s.substring(i)` with a single argument: a negative start is
clamped to 0, a start past the end yields the empty string. -/
def jsSubstringFrom (s : String) (i : Int) : String :=
  String.mk (s.data.drop i.toNat)

/-- The extension computed by the controller:
`filename.substring(filename.lastIndexOf("."))` (uploadFile / updateFile). -/
def extOf (filename : String) : String :=
  jsSubstringFrom filename (lastDotIdx filename.data)

/-- The storage key derived in `uploadFile`:
`uploads/` ++ generated id ++ extension. -/
def s3KeyFor (fileId filename : String) : String :=
  "uploads/" ++ fileId ++ extOf filename

/-- `FileValidator.getMimeTypeFromExtension(filename)`: `null` when the
filename has no '.', otherwise the `EXTENSION_TO_MIME` entry for the
lower-cased last-dot suffix (or `null` when unknown). -/
def getMimeTypeFromExtension (filename : String) : Option String :=
  let dotIndex := lastDotIdx filename.data
  if dotIndex = -1 then none
  else EXTENSION_TO_MIME.lookup (strToLower (jsSubstringFrom filename dotIndex))

/-! ## Metadata store

The SQLite table is modelled as a list of rows in rowid (insertion) order.
The PRIMARY KEY constraint on `id` makes a duplicate-id INSERT fail
atomically, leaving the table untouched; this is the error branch of
`save`. -/

/-- The SQLite failure relevant here: the PRIMARY KEY uniqueness violation
raised by an INSERT with an existing id. -/
inductive SqlError
  | uniqueConstraintViolation
deriving DecidableEq

/-- `MetadataStore.save(metadata)`: a plain INSERT (no upsert).  Fails with
a unique-constraint violation when a row with the same id exists; a failed
INSERT does not modify the table (the error branch carries no new state). -/
def save (table : List FileMetadata) (m : FileMetadata) :
    Except SqlError (List FileMetadata) :=
  if table.any (fun r => r.id = m.id) then
    Except.error SqlError.uniqueConstraintViolation
  else
    Except.ok (table ++ [m])

/-- The table after `save`, where a failed INSERT leaves it unchanged. -/
def saveTable (table : List FileMetadata) (m : FileMetadata) :
    List FileMetadata :=
  match save table m with
  | Except.ok t => t
  | Except.error _ => table

/-- `MetadataStore.findById(id)`: `SELECT * FROM file_metadata WHERE id = ?`
(first matching row, `undefined` when none). -/
def findById (table : List FileMetadata) (id : String) : Option FileMetadata :=
  table.find? (fun r => r.id = id)

/-- Lexicographic comparison of character lists by code point; on the
ASCII ISO-8601 timestamps stored in `uploaded_at` this coincides with
SQLite's BINARY collation on the TEXT column. -/
def listCharLe : List Char → List Char → Bool
  | [], _ => true
  | _ :: _, [] => false
  | a :: as, b :: bs =>
      if a.toNat < b.toNat then true
      else if b.toNat < a.toNat then false
      else listCharLe as bs

/-- SQLite TEXT comparison of two strings. -/
def textLe (a b : String) : Bool := listCharLe a.data b.data

/-- The ORDER BY relation of `findAll`: descending `uploaded_at` (TEXT
comparison). -/
def descByUploadedAt (a b : FileMetadata) : Prop :=
  textLe b.uploadedAt a.uploadedAt = true

instance : DecidableRel descByUploadedAt :=
  fun a b => inferInstanceAs (Decidable (textLe b.uploadedAt a.uploadedAt = true))

/-- `MetadataStore.findAll()`:
`SELECT * FROM file_metadata ORDER BY uploaded_at DESC`.  The sort is a
deterministic function of the table contents (SQLite evaluates a fixed
query plan); it is modelled as a stable insertion sort under the
descending-`uploaded_at` relation. -/
def findAll (table : List FileMetadata) : List FileMetadata :=
  List.insertionSort descByUploadedAt table

/-- `MetadataStore.delete(id)`: `DELETE FROM file_metadata WHERE id = ?`;
returns `changes > 0` together with the resulting table. -/
def deleteRow (table : List FileMetadata) (id : String) :
    Bool × List FileMetadata :=
  (table.any (fun r => r.id = id), table.filter (fun r => ¬ r.id = id))

/-- A `Partial<FileMetadata>` argument of `MetadataStore.update`: every
field optional. -/
structure PartialMetadata where
  id : Option String := none
  originalName : Option String := none
  mimeType : Option String := none
  size : Option Nat := none
  s3Key : Option String := none
  s3Bucket : Option String := none
  uploadedAt : Option String := none
deriving DecidableEq

/-- The JavaScript spread merge `{ ...existing, ...metadata }`: fields
present in the partial override the existing row. -/
def mergePartial (existing : FileMetadata) (p : PartialMetadata) :
    FileMetadata :=
  { id := p.id.getD existing.id
    originalName := p.originalName.getD existing.originalName
    mimeType := p.mimeType.getD existing.mimeType
    size := p.size.getD existing.size
    s3Key := p.s3Key.getD existing.s3Key
    s3Bucket := p.s3Bucket.getD existing.s3Bucket
    uploadedAt := p.uploadedAt.getD existing.uploadedAt }

/-- Effect of the UPDATE's SET clause on one matched row: the six non-id
columns take the merged row's values, the id column is untouched. -/
def setNonIdColumns (r updated : FileMetadata) : FileMetadata :=
  { id := r.id
    originalName := updated.originalName
    mimeType := updated.mimeType
    size := updated.size
    s3Key := updated.s3Key
    s3Bucket := updated.s3Bucket
    uploadedAt := updated.uploadedAt }

/-- The UPDATE statement of `MetadataStore.update`: sets the six non-id
columns of every row whose id column equals the merged row's id (the
statement is `UPDATE ... SET (six columns) WHERE id = @id`, bound from the
merged row). -/
def applyUpdateStmt (table : List FileMetadata) (updated : FileMetadata) :
    List FileMetadata :=
  table.map fun r => if r.id = updated.id then setNonIdColumns r updated else r

/-- `MetadataStore.update(id, metadata)`: looks up the row, returns
`undefined` (and runs no statement) when absent; otherwise merges the
partial onto the row, runs the UPDATE statement with `@id` bound to the
*merged* row's id, and returns the merged row.  Result: (returned value,
resulting table). -/
def update (table : List FileMetadata) (id : String) (p : PartialMetadata) :
    Option FileMetadata × List FileMetadata :=
  match findById table id with
  | none => (none, table)
  | some existing =>
      let updated := mergePartial existing p
      (some updated, applyUpdateStmt table updated)

/-! ## S3 service error mapping -/

/-- The raw AWS SDK error shape inspected by `mapS3Error`: `name` (the
code, with `""` for a missing name, as `awsError.name || ""`) and
`message` (with `""` for a missing message; `awsError.message || code`
falls back to the code exactly when the message is falsy). -/
structure AwsRawError where
  name : String
  message : String
deriving DecidableEq

/-- The closed error taxonomy (`AppError` and its subclasses), each
carrying its message; `unsupportedMediaType` also carries the
allowed-types detail. -/
inductive AppError
  | badRequest (message : String)
  | notFound (message : String)
  | payloadTooLarge (message : String)
  | unsupportedMediaType (message : String) (allowedTypes : List String)
  | internal (message : String)
deriving DecidableEq

/-- The HTTP status carried by each `AppError` subclass. -/
def AppError.statusCode : AppError → Nat
  | AppError.badRequest _ => 400
  | AppError.notFound _ => 404
  | AppError.payloadTooLarge _ => 413
  | AppError.unsupportedMediaType _ _ => 415
  | AppError.internal _ => 500

/-- `S3Service.mapS3Error(err, operation, key)`: the switch on the AWS
error code, producing a typed `AppError`.  `bucket` is the configured
bucket name used in the NoSuchBucket message. -/
def mapS3Error (bucket : String) (err : AwsRawError)
    (operation key : String) : AppError :=
  let code := err.name
  if code = "NoSuchKey" ∨ code = "NotFound" then
    AppError.notFound ("Object \"" ++ key ++ "\" not found in S3")
  else if code = "NoSuchBucket" then
    AppError.internal ("S3 bucket \"" ++ bucket ++
      "\" does not exist — check configuration")
  else if code = "AccessDenied" ∨ code = "Forbidden" then
    AppError.internal "Access denied to S3 — check AWS credentials and bucket policy"
  else if code = "InvalidAccessKeyId" ∨ code = "SignatureDoesNotMatch" then
    AppError.internal "Invalid AWS credentials — check AWS_ACCESS_KEY_ID / AWS_SECRET_ACCESS_KEY"
  else if code = "RequestTimeout" ∨ code = "TimeoutError" then
    AppError.internal ("S3 " ++ operation ++ " timed out for key \"" ++ key ++
      "\" — try again")
  else
    AppError.internal ("S3 " ++ operation ++ " failed: " ++
      (if err.message = "" then code else err.message))

/-- `S3Service.remove(key)` seen from the caller: the backend outcome of
the DeleteObjectCommand, with a backend failure re-thrown through
`mapS3Error(err, "delete", key)`. -/
def s3RemoveMapped (bucket key : String)
    (backend : Except AwsRawError Unit) : Except AppError Unit :=
  match backend with
  | Except.ok () => Except.ok ()
  | Except.error e => Except.error (mapS3Error bucket e "delete" key)

/-- `MediaController.deleteFile` after uuid validation: look up the record
(404 when unknown), `await s3Service.remove(metadata.s3Key)` — whose
failure, including a mapped not-found, propagates and skips everything
after it — then `metadataStore.delete(id)`.  Returns the resulting table
on success. -/
def deleteFileFlow (bucket : String) (table : List FileMetadata)
    (id : String) (backend : Except AwsRawError Unit) :
    Except AppError (List FileMetadata) :=
  match findById table id with
  | none =>
      Except.error (AppError.notFound ("File with id \"" ++ id ++ "\" not found"))
  | some m =>
      match s3RemoveMapped bucket m.s3Key backend with
      | Except.error e => Except.error e
      | Except.ok () => Except.ok (deleteRow table id).2

/-! ## Combined system state and the orchestrator's effect sequences

`uploadFile`, `updateFile` and `deleteFile` each perform their storage
phase (after validation succeeds) as a sequence of separate awaited calls
against the object store and the metadata store.  The sequences below
transcribe those calls in source order; executing a prefix of a sequence
yields the intermediate states the combined system passes through (and the
settled state left behind when a later call fails). -/

/-- One object held by the object store: its bytes and content type. -/
structure StoredObject where
  data : List Nat
  contentType : String
deriving DecidableEq

/-- The combined system state: the object store's key-to-object map (one
bucket) and the metadata table. -/
structure SysState where
  objects : List (String × StoredObject)
  table : List FileMetadata
deriving DecidableEq

/-- PutObject: last-writer-wins per key (overwrite or insert). -/
def putObject (objects : List (String × StoredObject)) (key : String)
    (obj : StoredObject) : List (String × StoredObject) :=
  if objects.any (fun p => p.1 = key) then
    objects.map (fun p => if p.1 = key then (key, obj) else p)
  else objects ++ [(key, obj)]

/-- DeleteObject: removes the key when present (no-op otherwise). -/
def removeObject (objects : List (String × StoredObject)) (key : String) :
    List (String × StoredObject) :=
  objects.filter (fun p => ¬ p.1 = key)

/-- One primitive storage-phase call of the controller. -/
inductive Action
  | s3Upload (key : String) (data : List Nat) (contentType : String)
  | s3Remove (key : String)
  | metaSave (m : FileMetadata)
  | metaUpdate (id : String) (p : PartialMetadata)
  | metaDelete (id : String)
deriving DecidableEq

/-- Effect of one primitive call on the combined state. -/
def applyAction (s : SysState) : Action → SysState
  | Action.s3Upload key data ct =>
      { s with objects := putObject s.objects key ⟨data, ct⟩ }
  | Action.s3Remove key => { s with objects := removeObject s.objects key }
  | Action.metaSave m => { s with table := saveTable s.table m }
  | Action.metaUpdate id p => { s with table := (update s.table id p).2 }
  | Action.metaDelete id => { s with table := (deleteRow s.table id).2 }

/-- Executes a sequence of primitive calls in order. -/
def execActions (acts : List Action) (s : SysState) : SysState :=
  acts.foldl applyAction s

/-- The §3 invariant, decidably: every metadata row's `s3Key` resolves to
an existing object whose byte length equals the row's `size`, and no two
rows share an id. -/
def nodupIds : List FileMetadata → Bool
  | [] => true
  | r :: rest => ¬ rest.any (fun x => x.id = r.id) && nodupIds rest

/-- Decides the combined-system invariant of §3 / claim C2. -/
def metadataInvariant (s : SysState) : Bool :=
  (s.table.all fun r =>
    match s.objects.lookup r.s3Key with
    | some obj => obj.data.length == r.size
    | none => false)
  && nodupIds s.table

/-- Storage phase of `MediaController.uploadFile` (after validation):
upload under `uploads/` ++ fileId ++ extension, then INSERT the metadata
row whose `s3Key`/`s3Bucket` are the values the upload returned. -/
def uploadFileActions (fileId : String) (file : ParsedFile)
    (mimeType uploadedAt bucket : String) : List Action :=
  [Action.s3Upload (s3KeyFor fileId file.filename) file.data mimeType,
   Action.metaSave
     { id := fileId
       originalName := file.filename
       mimeType := mimeType
       size := file.data.length
       s3Key := s3KeyFor fileId file.filename
       s3Bucket := bucket
       uploadedAt := uploadedAt }]

/-- Storage phase of `MediaController.updateFile` (after validation), in
source order: first `s3Service.remove(existing.s3Key)`, then
`s3Service.upload` under `uploads/` ++ id ++ new extension, then
`metadataStore.update` of the six mutable fields. -/
def updateFileActions (existing : FileMetadata) (id : String)
    (file : ParsedFile) (mimeType uploadedAt bucket : String) : List Action :=
  [Action.s3Remove existing.s3Key,
   Action.s3Upload ("uploads/" ++ id ++ extOf file.filename) file.data mimeType,
   Action.metaUpdate id
     { id := none
       originalName := some file.filename
       mimeType := some mimeType
       size := some file.data.length
       s3Key := some ("uploads/" ++ id ++ extOf file.filename)
       s3Bucket := some bucket
       uploadedAt := some uploadedAt }]

/-- Storage phase of `MediaController.deleteFile`: remove the object, then
DELETE the row. -/
def deleteFileActions (existing : FileMetadata) (id : String) : List Action :=
  [Action.s3Remove existing.s3Key, Action.metaDelete id]

/-! ## Helper lemmas -/

/-- A list whose first `sig.length` elements equal `sig` is at least that
long. -/
theorem length_le_of_take_eq {data sig : List Nat}
    (h : data.take sig.length = sig) : sig.length ≤ data.length := by
  have hl := List.length_take sig.length data
  rw [h] at hl
  rcases le_total sig.length data.length with h' | h'
  · exact h'
  · rw [min_eq_right h'] at hl
    omega

/-- `lastIndexOf(".")` is -1 on a dot-free character list. -/
theorem lastDotIdx_eq_neg_one {cs : List Char} (h : '.' ∉ cs) :
    lastDotIdx cs = -1 := by
  induction cs with
  | nil => rfl
  | cons c rest ih =>
      have hc : ¬ c = '.' := fun hc => h (hc ▸ List.mem_cons_self c rest)
      have hr : lastDotIdx rest = -1 := ih (fun hm => h (List.mem_cons_of_mem c hm))
      simp [lastDotIdx, hr, hc]

/-- The SET clause rewrites a matched row into the merged row whenever the
row's id already equals the merged row's id. -/
theorem setNonIdColumns_eq {r updated : FileMetadata} (h : r.id = updated.id) :
    setNonIdColumns r updated = updated := by
  cases r
  cases updated
  simpa [setNonIdColumns] using h

/-! ## C5: validate applies its rules in order, first failure wins -/

/-- C5: for every input, `validate` rejects empty content first; otherwise
rejects as oversized exactly when the length exceeds the configured limit
(length = limit passes this rule); otherwise rejects as unsupported type
when the lower-cased declared type is not in the fixed allow-list;
otherwise rejects as content-mismatch when the magic-byte check fails;
otherwise accepts. -/
theorem validate_rules_in_order (limit : Nat) (data : List Nat)
    (mt fn : String) :
    (data.length = 0 →
      validate limit data mt fn = Except.error ValidationError.badRequestEmpty) ∧
    (data.length ≠ 0 → data.length > limit →
      validate limit data mt fn = Except.error ValidationError.payloadTooLarge) ∧
    (data.length ≠ 0 → data.length ≤ limit →
      strToLower mt ∉ ["image/jpeg", "image/png", "image/gif", "application/pdf"] →
      validate limit data mt fn =
        Except.error ValidationError.unsupportedMediaTypeNotAllowed) ∧
    (data.length ≠ 0 → data.length ≤ limit →
      strToLower mt ∈ ["image/jpeg", "image/png", "image/gif", "application/pdf"] →
      matchesMagicBytes data mt = false →
      validate limit data mt fn =
        Except.error ValidationError.unsupportedMediaTypeMismatch) ∧
    (data.length ≠ 0 → data.length ≤ limit →
      strToLower mt ∈ ["image/jpeg", "image/png", "image/gif", "application/pdf"] →
      matchesMagicBytes data mt = true →
      validate limit data mt fn = Except.ok ()) := by
  refine ⟨fun h0 => ?_, fun h0 h1 => ?_, fun h0 h1 h2 => ?_,
    fun h0 h1 h2 h3 => ?_, fun h0 h1 h2 h3 => ?_⟩
  · simp [validate, h0]
  · simp [validate, h0, h1]
  · have hnotlt : ¬ data.length > limit := not_lt.mpr h1
    simp [validate, h0, hnotlt]
    intro hmem
    exact absurd hmem (by simpa [ALLOWED_MIME_TYPES] using h2)
  · have hnotlt : ¬ data.length > limit := not_lt.mpr h1
    have hmem : strToLower mt ∈ ALLOWED_MIME_TYPES := by
      simpa [ALLOWED_MIME_TYPES] using h2
    simp [validate, h0, hnotlt, hmem, h3]
  · have hnotlt : ¬ data.length > limit := not_lt.mpr h1
    have hmem : strToLower mt ∈ ALLOWED_MIME_TYPES := by
      simpa [ALLOWED_MIME_TYPES] using h2
    simp [validate, h0, hnotlt, hmem, h3]

/-- C5 witness: a 3-byte JPEG at limit 3 is accepted (length = limit is not
oversized); the same bytes at limit 2 are oversized; an empty buffer is
rejected first; a disallowed type and a mismatched signature each reject. -/
theorem validate_rules_in_order_witness :
    validate 3 [0xff, 0xd8, 0xff] "image/jpeg" "a.jpg" = Except.ok () ∧
    validate 2 [0xff, 0xd8, 0xff] "image/jpeg" "a.jpg" =
      Except.error ValidationError.payloadTooLarge ∧
    validate 3 [] "image/jpeg" "a.jpg" =
      Except.error ValidationError.badRequestEmpty ∧
    validate 3 [1, 2, 3] "text/plain" "a.txt" =
      Except.error ValidationError.unsupportedMediaTypeNotAllowed ∧
    validate 3 [1, 2, 3] "IMAGE/JPEG" "a.jpg" =
      Except.error ValidationError.unsupportedMediaTypeMismatch :=
  ⟨(validate_rules_in_order 3 [0xff, 0xd8, 0xff] "image/jpeg" "a.jpg").2.2.2.2
      (by decide) (by decide) (by decide) (by decide),
   (validate_rules_in_order 2 [0xff, 0xd8, 0xff] "image/jpeg" "a.jpg").2.1
      (by decide) (by decide),
   (validate_rules_in_order 3 [] "image/jpeg" "a.jpg").1 (by decide),
   (validate_rules_in_order 3 [1, 2, 3] "text/plain" "a.txt").2.2.1
      (by decide) (by decide) (by decide),
   (validate_rules_in_order 3 [1, 2, 3] "IMAGE/JPEG" "a.jpg").2.2.2.1
      (by decide) (by decide) (by decide) (by decide)⟩

/-! ## C6: magic-byte check -/

/-- C6: the signature check accepts by default every MIME type with no
registered signature; for a type with registered signatures it accepts
exactly when the leading bytes of the input equal one of them, and an
input shorter than every registered signature is always rejected (a
mismatch, never acceptance or an indeterminate result). -/
theorem matchesMagicBytes_spec (data : List Nat) (mt : String) :
    (MAGIC_BYTES.lookup (strToLower mt) = none →
      matchesMagicBytes data mt = true) ∧
    (∀ sigs, MAGIC_BYTES.lookup (strToLower mt) = some sigs →
      ((matchesMagicBytes data mt = true) ↔
        ∃ sig ∈ sigs, data.take sig.length = sig) ∧
      ((∀ sig ∈ sigs, data.length < sig.length) →
        matchesMagicBytes data mt = false)) := by
  constructor
  · intro hnone
    simp [matchesMagicBytes, hnone]
  · intro sigs hsome
    have hval : matchesMagicBytes data mt =
        sigs.any (fun sig =>
          if data.length < sig.length then false
          else data.take sig.length == sig) := by
      simp [matchesMagicBytes, hsome]
    constructor
    · rw [hval, List.any_eq_true]
      constructor
      · rintro ⟨sig, hmem, hsig⟩
        by_cases hlen : data.length < sig.length
        · simp [hlen] at hsig
        · simp [hlen] at hsig
          exact ⟨sig, hmem, hsig⟩
      · rintro ⟨sig, hmem, htake⟩
        refine ⟨sig, hmem, ?_⟩
        have hle : sig.length ≤ data.length := length_le_of_take_eq htake
        simp [Nat.not_lt.mpr hle, htake]
    · intro hshort
      rw [hval]
      simp only [List.any_eq_false]
      intro sig hmem
      simp [hshort sig hmem]

/-- C6 witness: jpeg has registered signatures, so the characterization
applies: a 2-byte truncation of the jpeg signature is shorter than the
3-byte signature and is rejected, while the full signature is accepted;
a type with no registered signature is accepted by default. -/
theorem matchesMagicBytes_spec_witness :
    matchesMagicBytes [0xff, 0xd8] "image/jpeg" = false ∧
    matchesMagicBytes [0xff, 0xd8, 0xff] "image/jpeg" = true ∧
    matchesMagicBytes [] "image/bmp" = true :=
  ⟨((matchesMagicBytes_spec [0xff, 0xd8] "image/jpeg").2
      [[0xff, 0xd8, 0xff]] (by decide)).2 (by decide),
   ((matchesMagicBytes_spec [0xff, 0xd8, 0xff] "image/jpeg").2
      [[0xff, 0xd8, 0xff]] (by decide)).1.mpr
      ⟨[0xff, 0xd8, 0xff], by decide, by decide⟩,
   (matchesMagicBytes_spec [] "image/bmp").1 (by decide)⟩

/-! ## C10: filenames without a dot -/

/-- C10: for an accepted file whose filename contains no '.', the
extension computed by `filename.substring(filename.lastIndexOf("."))`
equals the entire filename (the -1 start index is clamped to 0), so the
derived storage key is `uploads/` ++ id ++ the whole original filename
rather than id ++ an empty extension; and `getMimeTypeFromExtension`
returns null on such filenames. -/
theorem noDotFilename_spec (fileId filename : String)
    (h : '.' ∉ filename.data) :
    extOf filename = filename ∧
    s3KeyFor fileId filename = "uploads/" ++ fileId ++ filename ∧
    getMimeTypeFromExtension filename = none := by
  have hidx : lastDotIdx filename.data = -1 := lastDotIdx_eq_neg_one h
  have hext : extOf filename = filename := by
    show jsSubstringFrom filename (lastDotIdx filename.data) = filename
    rw [hidx]
    show String.mk (filename.data.drop (Int.toNat (-1))) = filename
    rfl
  refine ⟨hext, ?_, ?_⟩
  · show "uploads/" ++ fileId ++ extOf filename = "uploads/" ++ fileId ++ filename
    rw [hext]
  · simp [getMimeTypeFromExtension, hidx]

/-- C10 witness: filename `README` has no dot; the storage key keeps the
whole filename and extension inference yields null. -/
theorem noDotFilename_spec_witness :
    extOf "README" = "README" ∧
    s3KeyFor "11111111-1111-4111-8111-111111111111" "README" =
      "uploads/11111111-1111-4111-8111-111111111111README" ∧
    getMimeTypeFromExtension "README" = none := by
  have h := noDotFilename_spec "11111111-1111-4111-8111-111111111111" "README"
    (by decide)
  exact ⟨h.1, by rw [h.2.1]; decide, h.2.2⟩

/-! ## C4: findAll ordering -/

/-- The TEXT comparison is total. -/
theorem listCharLe_total (as : List Char) :
    ∀ bs, listCharLe as bs = true ∨ listCharLe bs as = true := by
  induction as with
  | nil => intro bs; left; rfl
  | cons a as ih =>
      intro bs
      cases bs with
      | nil => right; rfl
      | cons b bs' =>
          by_cases h1 : a.toNat < b.toNat
          · left; simp [listCharLe, h1]
          · by_cases h2 : b.toNat < a.toNat
            · right; simp [listCharLe, h2]
            · rcases ih bs' with h | h
              · left; simp [listCharLe, h1, h2, h]
              · right; simp [listCharLe, h1, h2, h]

/-- The TEXT comparison is transitive. -/
theorem listCharLe_trans (as : List Char) :
    ∀ bs cs, listCharLe as bs = true → listCharLe bs cs = true →
      listCharLe as cs = true := by
  induction as with
  | nil => intro bs cs _ _; rfl
  | cons a as ih =>
      intro bs cs hab hbc
      cases bs with
      | nil => simp [listCharLe] at hab
      | cons b bs' =>
          cases cs with
          | nil => simp [listCharLe] at hbc
          | cons c cs' =>
              simp only [listCharLe] at hab hbc ⊢
              by_cases hab1 : a.toNat < b.toNat
              · by_cases hbc1 : b.toNat < c.toNat
                · have : a.toNat < c.toNat := Nat.lt_trans hab1 hbc1
                  simp [this]
                · by_cases hbc2 : c.toNat < b.toNat
                  · simp [hbc1, hbc2] at hbc
                  · have hbceq : b.toNat = c.toNat := Nat.le_antisymm
                      (Nat.le_of_not_lt hbc2) (Nat.le_of_not_lt hbc1)
                    have : a.toNat < c.toNat := hbceq ▸ hab1
                    simp [this]
              · by_cases hab2 : b.toNat < a.toNat
                · simp [hab1, hab2] at hab
                · have habeq : a.toNat = b.toNat := Nat.le_antisymm
                    (Nat.le_of_not_lt hab2) (Nat.le_of_not_lt hab1)
                  simp [hab1, hab2] at hab
                  by_cases hbc1 : b.toNat < c.toNat
                  · have : a.toNat < c.toNat := habeq ▸ hbc1
                    simp [this]
                  · by_cases hbc2 : c.toNat < b.toNat
                    · simp [hbc1, hbc2] at hbc
                    · simp [hbc1, hbc2] at hbc
                      have h1 : ¬ a.toNat < c.toNat := by omega
                      have h2 : ¬ c.toNat < a.toNat := by omega
                      simp [h1, h2]
                      exact ih bs' cs' hab hbc

/-- C4: `findAll` returns exactly the stored records (a permutation of the
table), ordered by `uploadedAt` descending — every record is followed only
by records with an `uploadedAt` no greater than its own — and, being a
function of the table contents, two calls over the same store contents
return the same list (ties included). -/
theorem findAll_ordering_spec (table : List FileMetadata) :
    (findAll table).Perm table ∧
    List.Sorted descByUploadedAt (findAll table) ∧
    (∀ t, t = table → findAll t = findAll table) :=
  ⟨List.perm_insertionSort descByUploadedAt table,
   @List.sorted_insertionSort FileMetadata descByUploadedAt _
     ⟨fun a b => listCharLe_total b.uploadedAt.data a.uploadedAt.data⟩
     ⟨fun _ b _ hab hbc =>
       listCharLe_trans _ b.uploadedAt.data _ hbc hab⟩
     table,
   fun _ ht => by rw [ht]⟩

/-- C4 witness: on a two-row table saved oldest-first, `findAll` lists the
newer record first, the result is a permutation of the table, and a second
call over the same contents agrees. -/
theorem findAll_ordering_spec_witness :
    findAll
      [{ id := "id-old", originalName := "a.jpg", mimeType := "image/jpeg",
         size := 1, s3Key := "uploads/id-old.jpg", s3Bucket := "media-uploads",
         uploadedAt := "2026-01-01T00:00:00.000Z" },
       { id := "id-new", originalName := "b.jpg", mimeType := "image/jpeg",
         size := 2, s3Key := "uploads/id-new.jpg", s3Bucket := "media-uploads",
         uploadedAt := "2026-02-21T12:00:00.000Z" }] =
      [{ id := "id-new", originalName := "b.jpg", mimeType := "image/jpeg",
         size := 2, s3Key := "uploads/id-new.jpg", s3Bucket := "media-uploads",
         uploadedAt := "2026-02-21T12:00:00.000Z" },
       { id := "id-old", originalName := "a.jpg", mimeType := "image/jpeg",
         size := 1, s3Key := "uploads/id-old.jpg", s3Bucket := "media-uploads",
         uploadedAt := "2026-01-01T00:00:00.000Z" }] ∧
    (findAll
      [{ id := "id-old", originalName := "a.jpg", mimeType := "image/jpeg",
         size := 1, s3Key := "uploads/id-old.jpg", s3Bucket := "media-uploads",
         uploadedAt := "2026-01-01T00:00:00.000Z" },
       { id := "id-new", originalName := "b.jpg", mimeType := "image/jpeg",
         size := 2, s3Key := "uploads/id-new.jpg", s3Bucket := "media-uploads",
         uploadedAt := "2026-02-21T12:00:00.000Z" }]).Perm
      [{ id := "id-old", originalName := "a.jpg", mimeType := "image/jpeg",
         size := 1, s3Key := "uploads/id-old.jpg", s3Bucket := "media-uploads",
         uploadedAt := "2026-01-01T00:00:00.000Z" },
       { id := "id-new", originalName := "b.jpg", mimeType := "image/jpeg",
         size := 2, s3Key := "uploads/id-new.jpg", s3Bucket := "media-uploads",
         uploadedAt := "2026-02-21T12:00:00.000Z" }] ∧
    findAll
      [{ id := "id-old", originalName := "a.jpg", mimeType := "image/jpeg",
         size := 1, s3Key := "uploads/id-old.jpg", s3Bucket := "media-uploads",
         uploadedAt := "2026-01-01T00:00:00.000Z" },
       { id := "id-new", originalName := "b.jpg", mimeType := "image/jpeg",
         size := 2, s3Key := "uploads/id-new.jpg", s3Bucket := "media-uploads",
         uploadedAt := "2026-02-21T12:00:00.000Z" }] =
      findAll
        [{ id := "id-old", originalName := "a.jpg", mimeType := "image/jpeg",
           size := 1, s3Key := "uploads/id-old.jpg",
           s3Bucket := "media-uploads",
           uploadedAt := "2026-01-01T00:00:00.000Z" },
         { id := "id-new", originalName := "b.jpg", mimeType := "image/jpeg",
           size := 2, s3Key := "uploads/id-new.jpg",
           s3Bucket := "media-uploads",
           uploadedAt := "2026-02-21T12:00:00.000Z" }] := by
  refine ⟨?_, ?_, ?_⟩
  · decide
  · exact (findAll_ordering_spec
      [{ id := "id-old", originalName := "a.jpg", mimeType := "image/jpeg",
         size := 1, s3Key := "uploads/id-old.jpg", s3Bucket := "media-uploads",
         uploadedAt := "2026-01-01T00:00:00.000Z" },
       { id := "id-new", originalName := "b.jpg", mimeType := "image/jpeg",
         size := 2, s3Key := "uploads/id-new.jpg", s3Bucket := "media-uploads",
         uploadedAt := "2026-02-21T12:00:00.000Z" }]).1
  · exact (findAll_ordering_spec
      [{ id := "id-old", originalName := "a.jpg", mimeType := "image/jpeg",
         size := 1, s3Key := "uploads/id-old.jpg", s3Bucket := "media-uploads",
         uploadedAt := "2026-01-01T00:00:00.000Z" },
       { id := "id-new", originalName := "b.jpg", mimeType := "image/jpeg",
         size := 2, s3Key := "uploads/id-new.jpg", s3Bucket := "media-uploads",
         uploadedAt := "2026-02-21T12:00:00.000Z" }]).2.2 _ rfl

/-! ## C7: save is insert-only -/

/-- C7: `save` fails with the unique-constraint violation when a record
with the same id exists, and a failed save leaves the table unmodified;
when no record carries the id, `save` appends the record and a subsequent
`findById` with that id returns exactly the saved record. -/
theorem save_insert_only_spec (table : List FileMetadata) (m : FileMetadata) :
    ((∃ r ∈ table, r.id = m.id) →
      save table m = Except.error SqlError.uniqueConstraintViolation ∧
      saveTable table m = table) ∧
    ((∀ r ∈ table, r.id ≠ m.id) →
      save table m = Except.ok (table ++ [m]) ∧
      findById (saveTable table m) m.id = some m) := by
  constructor
  · intro hdup
    have hany : table.any (fun r => r.id = m.id) = true := by
      rw [List.any_eq_true]
      rcases hdup with ⟨r, hmem, hid⟩
      exact ⟨r, hmem, by simpa using hid⟩
    constructor
    · simp [save, hany]
    · simp [saveTable, save, hany]
  · intro hfresh
    have hany : table.any (fun r => r.id = m.id) = false := by
      rw [List.any_eq_false]
      intro r hmem
      simpa using hfresh r hmem
    have hsave : save table m = Except.ok (table ++ [m]) := by
      simp [save, hany]
    refine ⟨hsave, ?_⟩
    have htab : saveTable table m = table ++ [m] := by
      simp [saveTable, hsave]
    rw [htab]
    show (table ++ [m]).find? (fun r => r.id = m.id) = some m
    rw [List.find?_append]
    have hnone : table.find? (fun r => decide (r.id = m.id)) = none := by
      rw [List.find?_eq_none]
      intro r hmem
      simpa using hfresh r hmem
    rw [hnone]
    simp [List.find?]

/-- C7 witness: saving into an empty table succeeds and `findById` returns
the saved record; saving the same record again fails and leaves the table
as it was. -/
theorem save_insert_only_spec_witness :
    save [] { id := "id-1", originalName := "a.jpg", mimeType := "image/jpeg",
              size := 1, s3Key := "uploads/id-1.jpg",
              s3Bucket := "media-uploads",
              uploadedAt := "2026-01-01T00:00:00.000Z" } =
      Except.ok [{ id := "id-1", originalName := "a.jpg",
                   mimeType := "image/jpeg", size := 1,
                   s3Key := "uploads/id-1.jpg", s3Bucket := "media-uploads",
                   uploadedAt := "2026-01-01T00:00:00.000Z" }] ∧
    save [{ id := "id-1", originalName := "a.jpg", mimeType := "image/jpeg",
            size := 1, s3Key := "uploads/id-1.jpg",
            s3Bucket := "media-uploads",
            uploadedAt := "2026-01-01T00:00:00.000Z" }]
      { id := "id-1", originalName := "b.png", mimeType := "image/png",
        size := 2, s3Key := "uploads/id-1.png", s3Bucket := "media-uploads",
        uploadedAt := "2026-01-02T00:00:00.000Z" } =
      Except.error SqlError.uniqueConstraintViolation :=
  ⟨((save_insert_only_spec []
      { id := "id-1", originalName := "a.jpg", mimeType := "image/jpeg",
        size := 1, s3Key := "uploads/id-1.jpg", s3Bucket := "media-uploads",
        uploadedAt := "2026-01-01T00:00:00.000Z" }).2 (by decide)).1,
   ((save_insert_only_spec
      [{ id := "id-1", originalName := "a.jpg", mimeType := "image/jpeg",
         size := 1, s3Key := "uploads/id-1.jpg", s3Bucket := "media-uploads",
         uploadedAt := "2026-01-01T00:00:00.000Z" }]
      { id := "id-1", originalName := "b.png", mimeType := "image/png",
        size := 2, s3Key := "uploads/id-1.png", s3Bucket := "media-uploads",
        uploadedAt := "2026-01-02T00:00:00.000Z" }).1
      ⟨{ id := "id-1", originalName := "a.jpg", mimeType := "image/jpeg",
         size := 1, s3Key := "uploads/id-1.jpg", s3Bucket := "media-uploads",
         uploadedAt := "2026-01-01T00:00:00.000Z" }, by decide, by decide⟩).1⟩

/-! ## C8: update merge semantics

The UPDATE statement binds `WHERE id = @id` from the *merged* row, so a
partial that supplies `id` makes the statement target the new id rather
than the looked-up row: nothing matching is persisted, yet a merged record
is returned.  The claim therefore fails for partials that supply `id`; it
holds for every partial that does not. -/

/-- C8 counterexample: on a one-row table with id `id-1`, a partial update
of the known id `id-1` that supplies `id := id-2` returns the merged
record (not absent) yet leaves the table unchanged: no row equal to the
prior row with the supplied field replaced is persisted, contradicting the
claim at this input. -/
theorem update_supplied_id_counterexample :
    (update
      [{ id := "id-1", originalName := "a.jpg", mimeType := "image/jpeg",
         size := 1, s3Key := "uploads/id-1.jpg", s3Bucket := "media-uploads",
         uploadedAt := "2026-01-01T00:00:00.000Z" }]
      "id-1" { id := some "id-2" }).1 =
      some (mergePartial
        { id := "id-1", originalName := "a.jpg", mimeType := "image/jpeg",
          size := 1, s3Key := "uploads/id-1.jpg", s3Bucket := "media-uploads",
          uploadedAt := "2026-01-01T00:00:00.000Z" }
        { id := some "id-2" }) ∧
    (update
      [{ id := "id-1", originalName := "a.jpg", mimeType := "image/jpeg",
         size := 1, s3Key := "uploads/id-1.jpg", s3Bucket := "media-uploads",
         uploadedAt := "2026-01-01T00:00:00.000Z" }]
      "id-1" { id := some "id-2" }).2 =
      [{ id := "id-1", originalName := "a.jpg", mimeType := "image/jpeg",
         size := 1, s3Key := "uploads/id-1.jpg", s3Bucket := "media-uploads",
         uploadedAt := "2026-01-01T00:00:00.000Z" }] ∧
    mergePartial
      { id := "id-1", originalName := "a.jpg", mimeType := "image/jpeg",
        size := 1, s3Key := "uploads/id-1.jpg", s3Bucket := "media-uploads",
        uploadedAt := "2026-01-01T00:00:00.000Z" }
      { id := some "id-2" } ∉
      (update
        [{ id := "id-1", originalName := "a.jpg", mimeType := "image/jpeg",
           size := 1, s3Key := "uploads/id-1.jpg", s3Bucket := "media-uploads",
           uploadedAt := "2026-01-01T00:00:00.000Z" }]
        "id-1" { id := some "id-2" }).2 := by
  refine ⟨rfl, rfl, ?_⟩
  decide

/-- C8 amended: for every partial that does not supply the `id` field,
`update` on an unknown id returns absent and leaves every row unchanged;
on a known id it returns the prior row with exactly the supplied fields
replaced, persists the table in which that row (and only that row) is so
replaced, and keeps each unsupplied field at its prior value. -/
theorem update_partial_merge_spec (table : List FileMetadata) (id : String)
    (p : PartialMetadata) (hid : p.id = none) :
    (findById table id = none → update table id p = (none, table)) ∧
    (∀ ex, findById table id = some ex →
      (update table id p).1 = some (mergePartial ex p) ∧
      (update table id p).2 =
        table.map (fun r => if r.id = id then mergePartial ex p else r) ∧
      (mergePartial ex p).id = ex.id ∧
      (p.originalName = none →
        (mergePartial ex p).originalName = ex.originalName) ∧
      (p.mimeType = none → (mergePartial ex p).mimeType = ex.mimeType) ∧
      (p.size = none → (mergePartial ex p).size = ex.size) ∧
      (p.s3Key = none → (mergePartial ex p).s3Key = ex.s3Key) ∧
      (p.s3Bucket = none → (mergePartial ex p).s3Bucket = ex.s3Bucket) ∧
      (p.uploadedAt = none →
        (mergePartial ex p).uploadedAt = ex.uploadedAt)) := by
  constructor
  · intro hnone
    simp [update, hnone]
  · intro ex hex
    have hexid : ex.id = id := by
      have := List.find?_some hex
      simpa using this
    have hmid : (mergePartial ex p).id = ex.id := by
      simp [mergePartial, hid]
    refine ⟨?_, ?_, hmid, ?_, ?_, ?_, ?_, ?_, ?_⟩
    · simp [update, hex]
    · have hmap : applyUpdateStmt table (mergePartial ex p) =
          table.map (fun r => if r.id = id then mergePartial ex p else r) := by
        unfold applyUpdateStmt
        apply List.map_congr_left
        intro r _
        rw [hmid, hexid]
        by_cases hr : r.id = id
        · rw [if_pos hr, if_pos hr,
            setNonIdColumns_eq (by rw [hr, hmid, hexid])]
        · rw [if_neg hr, if_neg hr]
      simp [update, hex, hmap]
    · intro h; simp [mergePartial, h]
    · intro h; simp [mergePartial, h]
    · intro h; simp [mergePartial, h]
    · intro h; simp [mergePartial, h]
    · intro h; simp [mergePartial, h]
    · intro h; simp [mergePartial, h]

/-- C8 witness: updating the known id `id-1` with only a new name and size
returns and persists the merged row, keeps the unsupplied fields, and
leaves the other record untouched; updating the unknown id `id-3` returns
absent and changes nothing. -/
theorem update_partial_merge_spec_witness :
    update
      [{ id := "id-1", originalName := "a.jpg", mimeType := "image/jpeg",
         size := 1, s3Key := "uploads/id-1.jpg", s3Bucket := "media-uploads",
         uploadedAt := "2026-01-01T00:00:00.000Z" },
       { id := "id-2", originalName := "b.png", mimeType := "image/png",
         size := 2, s3Key := "uploads/id-2.png", s3Bucket := "media-uploads",
         uploadedAt := "2026-01-02T00:00:00.000Z" }]
      "id-1" { originalName := some "renamed.jpg", size := some 9 } =
      (some { id := "id-1", originalName := "renamed.jpg",
              mimeType := "image/jpeg", size := 9,
              s3Key := "uploads/id-1.jpg", s3Bucket := "media-uploads",
              uploadedAt := "2026-01-01T00:00:00.000Z" },
       [{ id := "id-1", originalName := "renamed.jpg",
          mimeType := "image/jpeg", size := 9, s3Key := "uploads/id-1.jpg",
          s3Bucket := "media-uploads",
          uploadedAt := "2026-01-01T00:00:00.000Z" },
        { id := "id-2", originalName := "b.png", mimeType := "image/png",
          size := 2, s3Key := "uploads/id-2.png", s3Bucket := "media-uploads",
          uploadedAt := "2026-01-02T00:00:00.000Z" }]) ∧
    update
      [{ id := "id-1", originalName := "a.jpg", mimeType := "image/jpeg",
         size := 1, s3Key := "uploads/id-1.jpg", s3Bucket := "media-uploads",
         uploadedAt := "2026-01-01T00:00:00.000Z" }]
      "id-3" { originalName := some "x" } =
      (none,
       [{ id := "id-1", originalName := "a.jpg", mimeType := "image/jpeg",
          size := 1, s3Key := "uploads/id-1.jpg", s3Bucket := "media-uploads",
          uploadedAt := "2026-01-01T00:00:00.000Z" }]) := by
  constructor
  · have h := (update_partial_merge_spec
      [{ id := "id-1", originalName := "a.jpg", mimeType := "image/jpeg",
         size := 1, s3Key := "uploads/id-1.jpg", s3Bucket := "media-uploads",
         uploadedAt := "2026-01-01T00:00:00.000Z" },
       { id := "id-2", originalName := "b.png", mimeType := "image/png",
         size := 2, s3Key := "uploads/id-2.png", s3Bucket := "media-uploads",
         uploadedAt := "2026-01-02T00:00:00.000Z" }]
      "id-1" { originalName := some "renamed.jpg", size := some 9 } rfl).2
      { id := "id-1", originalName := "a.jpg", mimeType := "image/jpeg",
        size := 1, s3Key := "uploads/id-1.jpg", s3Bucket := "media-uploads",
        uploadedAt := "2026-01-01T00:00:00.000Z" } (by decide)
    have h1 := h.1
    have h2 := h.2.1
    rw [Prod.ext_iff]
    exact ⟨by rw [h1]; decide, by rw [h2]; decide⟩
  · exact (update_partial_merge_spec
      [{ id := "id-1", originalName := "a.jpg", mimeType := "image/jpeg",
         size := 1, s3Key := "uploads/id-1.jpg", s3Bucket := "media-uploads",
         uploadedAt := "2026-01-01T00:00:00.000Z" }]
      "id-3" { originalName := some "x" } rfl).1 (by decide)

/-! ## C9: S3 error mapping -/

/-- C9: the adapter maps key-not-found family codes to not-found; missing
bucket, access-denied and invalid-credential codes to internal errors with
status 500 (never 4xx); timeout codes to an internal error whose message
carries the retry hint, literally ending in the text `try again`; any
unrecognized code to an internal error whose message carries the original
backend message verbatim (falling back to the code when the backend
message is empty); and every result is one of the typed `AppError`
variants — not-found or internal — so no backend-specific error crosses
the boundary. -/
theorem mapS3Error_policy_spec (bucket : String) (err : AwsRawError)
    (operation key : String) :
    (err.name = "NoSuchKey" ∨ err.name = "NotFound" →
      mapS3Error bucket err operation key =
        AppError.notFound ("Object \"" ++ key ++ "\" not found in S3")) ∧
    ((err.name = "NoSuchBucket" ∨ err.name = "AccessDenied" ∨
      err.name = "Forbidden" ∨ err.name = "InvalidAccessKeyId" ∨
      err.name = "SignatureDoesNotMatch") →
      (∃ msg, mapS3Error bucket err operation key = AppError.internal msg) ∧
      (mapS3Error bucket err operation key).statusCode = 500) ∧
    (err.name = "RequestTimeout" ∨ err.name = "TimeoutError" →
      mapS3Error bucket err operation key =
        AppError.internal ("S3 " ++ operation ++ " timed out for key \"" ++
          key ++ "\" — try again")) ∧
    (err.name ∉ ["NoSuchKey", "NotFound", "NoSuchBucket", "AccessDenied",
        "Forbidden", "InvalidAccessKeyId", "SignatureDoesNotMatch",
        "RequestTimeout", "TimeoutError"] →
      (err.message ≠ "" →
        mapS3Error bucket err operation key =
          AppError.internal ("S3 " ++ operation ++ " failed: " ++
            err.message)) ∧
      (err.message = "" →
        mapS3Error bucket err operation key =
          AppError.internal ("S3 " ++ operation ++ " failed: " ++
            err.name))) ∧
    ((∃ msg, mapS3Error bucket err operation key = AppError.notFound msg) ∨
     (∃ msg, mapS3Error bucket err operation key = AppError.internal msg)) := by
  refine ⟨?_, ?_, ?_, ?_, ?_⟩
  · intro h
    rcases h with h | h <;> simp [mapS3Error, h]
  · intro h
    rcases h with h | h | h | h | h
    · have hmap : mapS3Error bucket err operation key =
          AppError.internal ("S3 bucket \"" ++ bucket ++
            "\" does not exist — check configuration") := by
        simp [mapS3Error, h]
      exact ⟨⟨_, hmap⟩, by rw [hmap]; rfl⟩
    · have hmap : mapS3Error bucket err operation key =
          AppError.internal
            "Access denied to S3 — check AWS credentials and bucket policy" := by
        simp [mapS3Error, h]
      exact ⟨⟨_, hmap⟩, by rw [hmap]; rfl⟩
    · have hmap : mapS3Error bucket err operation key =
          AppError.internal
            "Access denied to S3 — check AWS credentials and bucket policy" := by
        simp [mapS3Error, h]
      exact ⟨⟨_, hmap⟩, by rw [hmap]; rfl⟩
    · have hmap : mapS3Error bucket err operation key =
          AppError.internal
            "Invalid AWS credentials — check AWS_ACCESS_KEY_ID / AWS_SECRET_ACCESS_KEY" := by
        simp [mapS3Error, h]
      exact ⟨⟨_, hmap⟩, by rw [hmap]; rfl⟩
    · have hmap : mapS3Error bucket err operation key =
          AppError.internal
            "Invalid AWS credentials — check AWS_ACCESS_KEY_ID / AWS_SECRET_ACCESS_KEY" := by
        simp [mapS3Error, h]
      exact ⟨⟨_, hmap⟩, by rw [hmap]; rfl⟩
  · intro h
    rcases h with h | h <;> simp [mapS3Error, h]
  · intro h
    simp only [List.mem_cons, List.not_mem_nil, or_false, not_or] at h
    obtain ⟨h1, h2, h3, h4, h5, h6, h7, h8, h9⟩ := h
    constructor
    · intro hm
      simp [mapS3Error, h1, h2, h3, h4, h5, h6, h7, h8, h9, hm]
    · intro hm
      simp [mapS3Error, h1, h2, h3, h4, h5, h6, h7, h8, h9, hm]
  · by_cases h1 : err.name = "NoSuchKey" ∨ err.name = "NotFound"
    · left
      have hmap : mapS3Error bucket err operation key =
          AppError.notFound ("Object \"" ++ key ++ "\" not found in S3") := by
        rcases h1 with h | h <;> simp [mapS3Error, h]
      exact ⟨_, hmap⟩
    · right
      simp only [not_or] at h1
      unfold mapS3Error
      rw [if_neg (by simpa using h1)]
      split
      · exact ⟨_, rfl⟩
      · split
        · exact ⟨_, rfl⟩
        · split
          · exact ⟨_, rfl⟩
          · split
            · exact ⟨_, rfl⟩
            · exact ⟨_, rfl⟩

/-- C9 witness: a concrete instance of each policy case: NoSuchKey maps to
not-found; AccessDenied maps to an internal error with status 500; a
timeout carries the retry hint; an unrecognized code carries the original
backend message. -/
theorem mapS3Error_policy_spec_witness :
    mapS3Error "media-uploads"
      { name := "NoSuchKey",
        message := "The specified key does not exist." } "delete" "k.jpg" =
      AppError.notFound "Object \"k.jpg\" not found in S3" ∧
    (mapS3Error "media-uploads"
      { name := "AccessDenied",
        message := "Access Denied" } "upload" "k.jpg").statusCode = 500 ∧
    mapS3Error "media-uploads"
      { name := "TimeoutError",
        message := "Connection timed out" } "download" "k.jpg" =
      AppError.internal "S3 download timed out for key \"k.jpg\" — try again" ∧
    mapS3Error "media-uploads"
      { name := "WeirdError",
        message := "Something very strange happened" } "download" "k.jpg" =
      AppError.internal "S3 download failed: Something very strange happened" := by
  refine ⟨?_, ?_, ?_, ?_⟩
  · have h := (mapS3Error_policy_spec "media-uploads"
      { name := "NoSuchKey", message := "The specified key does not exist." }
      "delete" "k.jpg").1 (Or.inl rfl)
    rw [h]; decide
  · exact ((mapS3Error_policy_spec "media-uploads"
      { name := "AccessDenied", message := "Access Denied" }
      "upload" "k.jpg").2.1 (Or.inr (Or.inl rfl))).2
  · have h := (mapS3Error_policy_spec "media-uploads"
      { name := "TimeoutError", message := "Connection timed out" }
      "download" "k.jpg").2.2.1 (Or.inr rfl)
    rw [h]; decide
  · have h := ((mapS3Error_policy_spec "media-uploads"
      { name := "WeirdError", message := "Something very strange happened" }
      "download" "k.jpg").2.2.2.1 (by decide)).1 (by decide)
    rw [h]; decide

/-! ## C3: delete on an object-store not-found

In `deleteFile` the `await s3Service.remove(metadata.s3Key)` call is not
wrapped: when the backend reports the object missing, `mapS3Error` turns
it into a thrown `NotFoundError` that propagates out of the handler, and
`metadataStore.delete(id)` on the next line is never reached.  The claim's
treat-as-success behavior is not what the code does (the repository's own
S3Service tests assert that `remove` rejects with `NotFoundError` on
`NoSuchKey`). -/

/-- C3 counterexample: with one record whose object is already gone
(backend reports NoSuchKey), `deleteFile` fails with the mapped not-found
error — it does not treat the removal as success, and the metadata row
is not removed (the claim would require the operation to succeed with an
emptied table). -/
theorem deleteFile_notFound_counterexample :
    deleteFileFlow "media-uploads"
      [{ id := "id-1", originalName := "a.jpg", mimeType := "image/jpeg",
         size := 1, s3Key := "uploads/id-1.jpg", s3Bucket := "media-uploads",
         uploadedAt := "2026-01-01T00:00:00.000Z" }]
      "id-1"
      (Except.error
        { name := "NoSuchKey",
          message := "The specified key does not exist." }) =
      Except.error (AppError.notFound
        "Object \"uploads/id-1.jpg\" not found in S3") ∧
    deleteFileFlow "media-uploads"
      [{ id := "id-1", originalName := "a.jpg", mimeType := "image/jpeg",
         size := 1, s3Key := "uploads/id-1.jpg", s3Bucket := "media-uploads",
         uploadedAt := "2026-01-01T00:00:00.000Z" }]
      "id-1"
      (Except.error
        { name := "NoSuchKey",
          message := "The specified key does not exist." }) ≠
      Except.ok [] := by
  constructor
  · rfl
  · intro h
    exact Except.noConfusion h

/-- C3 amended: for every existing record, when object-store removal
reports not-found (already gone), the delete operation fails with the
mapped not-found error instead of treating it as success, and the
metadata row is not removed (delete is not idempotent at the object-store
level). -/
theorem deleteFile_notFound_propagates (bucket : String)
    (table : List FileMetadata) (id : String) (m : FileMetadata)
    (e : AwsRawError) (hm : findById table id = some m)
    (he : e.name = "NoSuchKey" ∨ e.name = "NotFound") :
    deleteFileFlow bucket table id (Except.error e) =
      Except.error (AppError.notFound
        ("Object \"" ++ m.s3Key ++ "\" not found in S3")) := by
  unfold deleteFileFlow
  rw [hm]
  unfold s3RemoveMapped
  rcases he with h | h <;> simp [mapS3Error, h]

/-- C3 amended witness: the NotFound backend code also propagates. -/
theorem deleteFile_notFound_propagates_witness :
    deleteFileFlow "media-uploads"
      [{ id := "id-2", originalName := "b.png", mimeType := "image/png",
         size := 2, s3Key := "uploads/id-2.png", s3Bucket := "media-uploads",
         uploadedAt := "2026-01-02T00:00:00.000Z" }]
      "id-2" (Except.error { name := "NotFound", message := "Not Found" }) =
      Except.error (AppError.notFound
        "Object \"uploads/id-2.png\" not found in S3") := by
  have h := deleteFile_notFound_propagates "media-uploads"
    [{ id := "id-2", originalName := "b.png", mimeType := "image/png",
       size := 2, s3Key := "uploads/id-2.png", s3Bucket := "media-uploads",
       uploadedAt := "2026-01-02T00:00:00.000Z" }]
    "id-2"
    { id := "id-2", originalName := "b.png", mimeType := "image/png",
      size := 2, s3Key := "uploads/id-2.png", s3Bucket := "media-uploads",
      uploadedAt := "2026-01-02T00:00:00.000Z" }
    { name := "NotFound", message := "Not Found" } (by decide) (Or.inr rfl)
  rw [h]
  rfl

/-! ## C1: ordering of the storage swap in replace

The source (`MediaController.updateFile`) runs
`await this.s3Service.remove(existing.s3Key)` *before* uploading the
replacement object and before updating the metadata row — the comment in
the source reads "Delete old file from S3 then upload the new one".  The
claim (and §4.5 of the spec) mandates the opposite order: upload-new →
update-metadata → remove-old; §9 of the spec flags the source's
delete-first ordering as the correctness bug to fix, so the claim is right
and the code is wrong. -/

/-- C1: for every existing record and replacement file, the first two
storage-phase calls of `updateFile` are, in order, the removal of the old
object and then the upload of the new one — the old object is removed
before the new object is written (and before the metadata row is
updated), contrary to the claim. -/
theorem updateFile_removes_old_object_first (existing : FileMetadata)
    (id : String) (file : ParsedFile) (mimeType uploadedAt bucket : String) :
    (updateFileActions existing id file mimeType uploadedAt bucket).take 2 =
      [Action.s3Remove existing.s3Key,
       Action.s3Upload ("uploads/" ++ id ++ extOf file.filename)
         file.data mimeType] ∧
    (updateFileActions existing id file mimeType uploadedAt bucket).head? =
      some (Action.s3Remove existing.s3Key) :=
  ⟨rfl, rfl⟩

/-! ## C2: the storage/metadata consistency invariant

Because replace removes the old object first (C1), the combined system
passes through — and, if the subsequent upload fails, durably remains in —
a state where the record's `storageKey` resolves to no object.  Below, a
record is created by the upload operation (the invariant holds), then the
first storage call of a replace is executed: the invariant is violated
while the metadata row still points at the removed key. -/

/-- C2: after creating a record via the upload sequence the invariant
holds and the table holds exactly the expected row, but executing only the
first storage call of the replace sequence for that record (the removal of
the old object — all that has happened when the replacement upload begins,
and all that ever happens if that upload fails) yields a reachable state
violating the invariant: the record's storage key no longer resolves to
any object. -/
theorem replace_window_violates_invariant :
    metadataInvariant
      (execActions
        (uploadFileActions "11111111-1111-4111-8111-111111111111"
          { filename := "a.jpg", mimeType := "image/jpeg",
            data := [255, 216, 255] }
          "image/jpeg" "2026-01-01T00:00:00.000Z" "media-uploads")
        { objects := [], table := [] }) = true ∧
    (execActions
      (uploadFileActions "11111111-1111-4111-8111-111111111111"
        { filename := "a.jpg", mimeType := "image/jpeg",
          data := [255, 216, 255] }
        "image/jpeg" "2026-01-01T00:00:00.000Z" "media-uploads")
      { objects := [], table := [] }).table =
      [{ id := "11111111-1111-4111-8111-111111111111",
         originalName := "a.jpg", mimeType := "image/jpeg", size := 3,
         s3Key := "uploads/11111111-1111-4111-8111-111111111111.jpg",
         s3Bucket := "media-uploads",
         uploadedAt := "2026-01-01T00:00:00.000Z" }] ∧
    metadataInvariant
      (execActions
        ((updateFileActions
          { id := "11111111-1111-4111-8111-111111111111",
            originalName := "a.jpg", mimeType := "image/jpeg", size := 3,
            s3Key := "uploads/11111111-1111-4111-8111-111111111111.jpg",
            s3Bucket := "media-uploads",
            uploadedAt := "2026-01-01T00:00:00.000Z" }
          "11111111-1111-4111-8111-111111111111"
          { filename := "b.png", mimeType := "image/png",
            data := [137, 80, 78, 71, 13] }
          "image/png" "2026-01-02T00:00:00.000Z" "media-uploads").take 1)
        (execActions
          (uploadFileActions "11111111-1111-4111-8111-111111111111"
            { filename := "a.jpg", mimeType := "image/jpeg",
              data := [255, 216, 255] }
            "image/jpeg" "2026-01-01T00:00:00.000Z" "media-uploads")
          { objects := [], table := [] })) = false := by
  refine ⟨?_, ?_, ?_⟩
  · decide
  · decide
  · decide

end MediaService
